import Mathlib

/-!
Verification of a minimal HTTP data-access facade (axum + sqlx, `src/main.rs`):
four handlers (`get_products`, `get_customers`, `get_orders`, `add_order`)
over a relational store holding `product`, `customer` and `order` tables.

The embedding models:
* the record types `Product`, `Customer`, `Order`, `NewOrder` from the source;
* serde deserialization of a `NewOrder` JSON body (unknown fields ignored,
  `quantity` an `i32`, uuid fields parsed from hyphenated strings);
* the store as a list-per-table database that either answers every statement
  or fails every statement with a fixed error string (connectivity loss,
  syntax error, ...); the insert additionally enforces the foreign keys of
  the `order` table, as PostgreSQL does;
* each handler exactly as written: one statement, `map_err` logging to
  stderr and collapsing to status 500, with the issued statements recorded
  in a trace;
* the axum router and the fallible startup of `main`.
-/

namespace Shop

/-- A UUID, modelled by its 128-bit numeric value. -/
abbrev Uuid := Nat

/-- A chrono `NaiveDateTime`, modelled as an abstract instant. -/
abbrev Timestamp := Nat

/-- Struct representing the `Product` table: `id: Uuid`, `name: String`. -/
structure Product where
  id : Uuid
  name : String
deriving DecidableEq, Repr

/-- Struct representing the `Customer` table: `id: Uuid`, `name: String`. -/
structure Customer where
  id : Uuid
  name : String
deriving DecidableEq, Repr

/-- Struct representing the `Order` table: all five columns. -/
structure Order where
  id : Uuid
  customer_id : Uuid
  product_id : Uuid
  quantity : Int
  order_date : Timestamp
deriving DecidableEq, Repr

/-- Struct for new order input (used in POST `/orders`): the three
deserialized fields; `order_date` is not among them. -/
structure NewOrder where
  customer_id : Uuid
  product_id : Uuid
  quantity : Int
deriving DecidableEq, Repr

/-! ## JSON values and serde deserialization of `NewOrder` -/

/-- A JSON value. An integral number is `int`; a number with a fractional
part is `frac` (whole part and fraction digits), which serde rejects for
integer fields. -/
inductive Json where
  | str (s : String)
  | int (n : Int)
  | frac (whole : Int) (fracDigits : String)
  | bool (b : Bool)
  | null
  | arr (elems : List Json)
  | obj (fields : List (String × Json))

/-- Whether a JSON value is an integral number. -/
def Json.isInt : Json → Bool
  | .int _ => true
  | _ => false

/-- First value bound to key `k` in a JSON object's field list. -/
def jLookup (fields : List (String × Json)) (k : String) : Option Json :=
  match fields with
  | [] => none
  | (k2, v) :: rest => if k2 = k then some v else jLookup rest k

/-- Value of one hexadecimal digit character. -/
def hexDigit (c : Char) : Option Nat :=
  if 48 ≤ c.toNat ∧ c.toNat ≤ 57 then some (c.toNat - 48)
  else if 97 ≤ c.toNat ∧ c.toNat ≤ 102 then some (c.toNat - 87)
  else if 65 ≤ c.toNat ∧ c.toNat ≤ 70 then some (c.toNat - 55)
  else none

/-- Accumulating big-endian hexadecimal parse. -/
def parseHexDigits : List Char → Nat → Option Nat
  | [], acc => some acc
  | c :: cs, acc =>
    match hexDigit c with
    | some d => parseHexDigits cs (acc * 16 + d)
    | none => none

/-- Split a character list on the dash character. -/
def splitDash : List Char → List (List Char)
  | [] => [[]]
  | c :: cs =>
    let rest := splitDash cs
    if c = '-' then [] :: rest
    else
      match rest with
      | [] => [[c]]
      | g :: gs => (c :: g) :: gs

/-- Modelled from the uuid crate used by serde for the `Uuid` fields:
parse of the canonical hyphenated form `xxxxxxxx-xxxx-xxxx-xxxx-xxxxxxxxxxxx`. -/
def parseUuid (s : String) : Option Uuid :=
  match splitDash s.toList with
  | [a, b, c, d, e] =>
    if a.length = 8 ∧ b.length = 4 ∧ c.length = 4 ∧ d.length = 4 ∧ e.length = 12 then
      parseHexDigits (a ++ b ++ c ++ d ++ e) 0
    else none
  | _ => none

/-- serde deserialization of a `Uuid` field: a JSON string in uuid format. -/
def asUuid (j : Json) : Option Uuid :=
  match j with
  | .str s => parseUuid s
  | _ => none

/-- Smallest `i32`. -/
def i32Min : Int := -(2 ^ 31)

/-- Largest `i32`. -/
def i32Max : Int := 2 ^ 31 - 1

/-- serde deserialization of an `i32` field: an integral JSON number within
the 32-bit signed range; a fractional number, string, etc. is rejected. -/
def asI32 (j : Json) : Option Int :=
  match j with
  | .int n => if i32Min ≤ n ∧ n ≤ i32Max then some n else none
  | _ => none

/-- serde `Deserialize` for `NewOrder` (derived, no `deny_unknown_fields`):
each declared field must be present and well-typed; unknown fields are
ignored. -/
def deserializeNewOrder (j : Json) : Option NewOrder :=
  match j with
  | .obj fields =>
    (jLookup fields "customer_id").bind fun cj =>
    (asUuid cj).bind fun c =>
    (jLookup fields "product_id").bind fun pj =>
    (asUuid pj).bind fun p =>
    (jLookup fields "quantity").bind fun qj =>
    (asI32 qj).bind fun q =>
    some { customer_id := c, product_id := p, quantity := q }
  | _ => none

/-! ## The relational store -/

/-- State of the PostgreSQL store reachable through the pool: the three
tables in storage order, the id the store will generate for the next
inserted order row, and `fail`: when `some msg`, every statement fails with
the error `msg` (connectivity loss, missing table, syntax error, ...). -/
structure Db where
  products : List Product
  customers : List Customer
  orders : List Order
  nextOrderId : Uuid
  fail : Option String
deriving DecidableEq, Repr

/-- One round trip to the store, as recorded in a handler's trace. -/
inductive DbOp where
  | selectProducts
  | selectCustomers
  | selectOrders
  | insertOrder (customer_id product_id : Uuid) (quantity : Int) (order_date : Timestamp)
deriving DecidableEq, Repr

/-- Error text of a violated `order → customer` foreign key. -/
def fkViolationCustomer : String :=
  "insert or update on table \"order\" violates foreign key constraint \"order_customer_id_fkey\""

/-- Error text of a violated `order → product` foreign key. -/
def fkViolationProduct : String :=
  "insert or update on table \"order\" violates foreign key constraint \"order_product_id_fkey\""

/-- `SELECT id, name FROM product`. -/
def selectAllProducts (db : Db) : Except String (List Product) :=
  match db.fail with
  | some e => .error e
  | none => .ok db.products

/-- `SELECT id, name FROM customer`. -/
def selectAllCustomers (db : Db) : Except String (List Customer) :=
  match db.fail with
  | some e => .error e
  | none => .ok db.customers

/-- `SELECT id, customer_id, product_id, quantity, order_date FROM "order"`. -/
def selectAllOrders (db : Db) : Except String (List Order) :=
  match db.fail with
  | some e => .error e
  | none => .ok db.orders

/-- `INSERT INTO "order" ... RETURNING ...`: fails when the store fails or a
foreign key is violated; otherwise appends a row with a store-generated id
and returns it together with the new store state. -/
def insertOrderReturning (db : Db) (c p : Uuid) (q : Int) (d : Timestamp) :
    Except String (Order × Db) :=
  match db.fail with
  | some e => .error e
  | none =>
    if c ∈ db.customers.map Customer.id then
      if p ∈ db.products.map Product.id then
        let o : Order :=
          { id := db.nextOrderId, customer_id := c, product_id := p,
            quantity := q, order_date := d }
        .ok (o, { db with orders := db.orders ++ [o], nextOrderId := db.nextOrderId + 1 })
      else .error fkViolationProduct
    else .error fkViolationCustomer

/-! ## Handlers -/

/-- `StatusCode::INTERNAL_SERVER_ERROR`. -/
def INTERNAL_SERVER_ERROR : Nat := 500

/-- What a handler invocation produces: `Result<Json<α>, StatusCode>`, the
store state afterwards, the stderr lines written, and the statements issued. -/
structure HandlerOutput (α : Type) where
  response : Except Nat α
  db : Db
  log : List String
  trace : List DbOp

/-- GET `/products`: fetch all products; on store failure log
`Failed to fetch products: {err}` and return 500. -/
def get_products (db : Db) : HandlerOutput (List Product) :=
  match selectAllProducts db with
  | .error err =>
    { response := .error INTERNAL_SERVER_ERROR, db := db,
      log := ["Failed to fetch products: " ++ err], trace := [.selectProducts] }
  | .ok products =>
    { response := .ok products, db := db, log := [], trace := [.selectProducts] }

/-- GET `/customers`: fetch all customers; same error shape. -/
def get_customers (db : Db) : HandlerOutput (List Customer) :=
  match selectAllCustomers db with
  | .error err =>
    { response := .error INTERNAL_SERVER_ERROR, db := db,
      log := ["Failed to fetch customers: " ++ err], trace := [.selectCustomers] }
  | .ok customers =>
    { response := .ok customers, db := db, log := [], trace := [.selectCustomers] }

/-- GET `/orders`: fetch all orders with all five fields; same error shape. -/
def get_orders (db : Db) : HandlerOutput (List Order) :=
  match selectAllOrders db with
  | .error err =>
    { response := .error INTERNAL_SERVER_ERROR, db := db,
      log := ["Failed to fetch orders: " ++ err], trace := [.selectOrders] }
  | .ok orders =>
    { response := .ok orders, db := db, log := [], trace := [.selectOrders] }

/-- POST `/orders`: insert the payload's three fields together with
`Utc::now().naive_utc()` (the parameter `now`); on failure log
`Failed to add order: {err}` and return 500. -/
def add_order (now : Timestamp) (payload : NewOrder) (db : Db) : HandlerOutput Order :=
  match insertOrderReturning db payload.customer_id payload.product_id payload.quantity now with
  | .error err =>
    { response := .error INTERNAL_SERVER_ERROR, db := db,
      log := ["Failed to add order: " ++ err],
      trace := [.insertOrder payload.customer_id payload.product_id payload.quantity now] }
  | .ok (new_order, db2) =>
    { response := .ok new_order, db := db2, log := [],
      trace := [.insertOrder payload.customer_id payload.product_id payload.quantity now] }

/-! ## Router -/

/-- A request to one of the four routes. -/
inductive Request where
  | getProducts
  | getCustomers
  | getOrders
  | postOrders (body : Json)

/-- A serialized HTTP response: a 200 with a typed JSON body, or a bare
status code with no body. -/
inductive Response where
  | okProducts (body : List Product)
  | okCustomers (body : List Customer)
  | okOrders (body : List Order)
  | okOrder (body : Order)
  | status (code : Nat)

/-- HTTP status of a response; a JSON body is sent with 200. -/
def statusOf : Response → Nat
  | .status c => c
  | _ => 200

/-- Status the framework's `Json` extractor answers when the body does not
deserialize into the expected shape (422 Unprocessable Entity). -/
def UNPROCESSABLE_ENTITY : Nat := 422

/-- What serving one request produces. -/
structure ServeOutput where
  response : Response
  db : Db
  log : List String
  trace : List DbOp

/-- The router: dispatch to the matching handler; for POST `/orders` the
`Json<NewOrder>` extractor runs first and rejects a malformed body before
the handler is invoked. -/
def serveRequest (now : Timestamp) (req : Request) (db : Db) : ServeOutput :=
  match req with
  | .getProducts =>
    let h := get_products db
    { response :=
        match h.response with
        | .ok body => .okProducts body
        | .error c => .status c,
      db := h.db, log := h.log, trace := h.trace }
  | .getCustomers =>
    let h := get_customers db
    { response :=
        match h.response with
        | .ok body => .okCustomers body
        | .error c => .status c,
      db := h.db, log := h.log, trace := h.trace }
  | .getOrders =>
    let h := get_orders db
    { response :=
        match h.response with
        | .ok body => .okOrders body
        | .error c => .status c,
      db := h.db, log := h.log, trace := h.trace }
  | .postOrders body =>
    match deserializeNewOrder body with
    | none =>
      { response := .status UNPROCESSABLE_ENTITY, db := db, log := [], trace := [] }
    | some payload =>
      let h := add_order now payload db
      { response :=
          match h.response with
          | .ok o => .okOrder o
          | .error c => .status c,
        db := h.db, log := h.log, trace := h.trace }

/-! ## Startup -/

/-- Outcome of `main`'s startup sequence. -/
inductive StartOutcome where
  | fatal (msg : String)
  | started
deriving DecidableEq, Repr

/-- Startup of `main`: read `DATABASE_URL` (`.expect` aborts with a message
when absent), then connect the pool (`.expect` aborts with a message when
the connection fails). No retry. -/
def startup (databaseUrl : Option String) (connectOk : Bool) : StartOutcome :=
  match databaseUrl with
  | none => .fatal "DATABASE_URL must be set"
  | some _ =>
    if connectOk then .started
    else .fatal "Failed to create database connection pool"

/-! ## Deserialization lemmas -/

theorem deserializeNewOrder_obj (fs : List (String × Json)) :
    deserializeNewOrder (.obj fs) =
      ((jLookup fs "customer_id").bind fun cj =>
      (asUuid cj).bind fun c =>
      (jLookup fs "product_id").bind fun pj =>
      (asUuid pj).bind fun p =>
      (jLookup fs "quantity").bind fun qj =>
      (asI32 qj).bind fun q =>
      some { customer_id := c, product_id := p, quantity := q }) := rfl

theorem asI32_eq_none_of_not_int (j : Json) (h : j.isInt = false) : asI32 j = none := by
  cases j <;> simp_all [asI32, Json.isInt]

theorem deserializeNewOrder_quantity_fail (fs : List (String × Json))
    (h : ∀ j, jLookup fs "quantity" = some j → asI32 j = none) :
    deserializeNewOrder (.obj fs) = none := by
  rw [deserializeNewOrder_obj]
  cases jLookup fs "customer_id" with
  | none => rfl
  | some cj =>
    rw [Option.some_bind']
    cases asUuid cj with
    | none => rfl
    | some c =>
      rw [Option.some_bind']
      cases jLookup fs "product_id" with
      | none => rfl
      | some pj =>
        rw [Option.some_bind']
        cases asUuid pj with
        | none => rfl
        | some p =>
          rw [Option.some_bind']
          cases hq : jLookup fs "quantity" with
          | none => rfl
          | some qj =>
            rw [Option.some_bind', h qj hq, Option.none_bind']

/-! ## Concrete store fixtures -/

/-- A healthy store with two products. -/
def dbTwoProducts : Db :=
  { products := [{ id := 1, name := "apple" }, { id := 2, name := "banana" }],
    customers := [{ id := 7, name := "ada" }],
    orders := [], nextOrderId := 100, fail := none }

/-- A healthy store with one customer, one product and one existing order. -/
def dbSeed : Db :=
  { products := [{ id := 1, name := "apple" }],
    customers := [{ id := 7, name := "ada" }],
    orders := [{ id := 50, customer_id := 7, product_id := 1, quantity := 2, order_date := 10 }],
    nextOrderId := 100, fail := none }

/-- A store whose every statement fails with a connectivity error. -/
def dbDown : Db :=
  { products := [], customers := [], orders := [], nextOrderId := 0,
    fail := some "connection refused" }

/-! ## Theorems -/

/-- C1: for every state of the store (on which the query succeeds),
GET `/products` answers status 200 whose body is exactly the stored
product rows, in storage order — so no row duplicated, none omitted —
and leaves the store unchanged. -/
theorem C1_get_products_returns_all_rows (now : Timestamp) (db : Db)
    (h : db.fail = none) :
    (serveRequest now .getProducts db).response = .okProducts db.products ∧
    statusOf (serveRequest now .getProducts db).response = 200 ∧
    (serveRequest now .getProducts db).db = db := by
  simp [serveRequest, get_products, selectAllProducts, h, statusOf]

/-- Witness for C1 on a concrete two-product store. -/
theorem C1_witness :
    (serveRequest 0 .getProducts dbTwoProducts).response = .okProducts dbTwoProducts.products ∧
    statusOf (serveRequest 0 .getProducts dbTwoProducts).response = 200 ∧
    (serveRequest 0 .getProducts dbTwoProducts).db = dbTwoProducts :=
  C1_get_products_returns_all_rows 0 dbTwoProducts rfl

/-- C6: GET `/orders` answers status 200 whose body is exactly the stored
order rows — each row is the stored record with all five fields intact,
none duplicated, none omitted. -/
theorem C6_get_orders_returns_all_rows (now : Timestamp) (db : Db)
    (h : db.fail = none) :
    (serveRequest now .getOrders db).response = .okOrders db.orders ∧
    statusOf (serveRequest now .getOrders db).response = 200 ∧
    (serveRequest now .getOrders db).db = db := by
  simp [serveRequest, get_orders, selectAllOrders, h, statusOf]

/-- Witness for C6 on a concrete store with one order row. -/
theorem C6_witness :
    (serveRequest 0 .getOrders dbSeed).response = .okOrders dbSeed.orders ∧
    statusOf (serveRequest 0 .getOrders dbSeed).response = 200 ∧
    (serveRequest 0 .getOrders dbSeed).db = dbSeed :=
  C6_get_orders_returns_all_rows 0 dbSeed rfl

/-- C8: every handler issues exactly one statement to the store (its trace
is a one-element list) and never retries; the GET handlers leave the store
state unchanged. -/
theorem C8_one_round_trip_per_request (db : Db) (now : Timestamp) (payload : NewOrder) :
    (get_products db).trace = [.selectProducts] ∧ (get_products db).db = db ∧
    (get_customers db).trace = [.selectCustomers] ∧ (get_customers db).db = db ∧
    (get_orders db).trace = [.selectOrders] ∧ (get_orders db).db = db ∧
    (add_order now payload db).trace =
      [.insertOrder payload.customer_id payload.product_id payload.quantity now] := by
  refine ⟨?_, ?_, ?_, ?_, ?_, ?_, ?_⟩
  · unfold get_products; rcases selectAllProducts db with e | v <;> rfl
  · unfold get_products; rcases selectAllProducts db with e | v <;> rfl
  · unfold get_customers; rcases selectAllCustomers db with e | v <;> rfl
  · unfold get_customers; rcases selectAllCustomers db with e | v <;> rfl
  · unfold get_orders; rcases selectAllOrders db with e | v <;> rfl
  · unfold get_orders; rcases selectAllOrders db with e | v <;> rfl
  · unfold add_order
    rcases insertOrderReturning db payload.customer_id payload.product_id payload.quantity now
      with e | ⟨o, db2⟩ <;> rfl

/-- C2: posting a `NewOrder` whose customer and product exist yields a 200
with an `Order` carrying the same `customer_id`, `product_id` and
`quantity`, the store-generated fresh id, and the server-computed
timestamp `now`; a subsequent GET `/orders` on the resulting store includes
the new row. -/
theorem C2_add_order_creates_row (now : Timestamp) (db : Db) (C P : Uuid) (Q : Int)
    (hfail : db.fail = none)
    (hc : C ∈ db.customers.map Customer.id)
    (hp : P ∈ db.products.map Product.id)
    (hfresh : ∀ o ∈ db.orders, o.id ≠ db.nextOrderId) :
    (add_order now { customer_id := C, product_id := P, quantity := Q } db).response =
      .ok { id := db.nextOrderId, customer_id := C, product_id := P,
            quantity := Q, order_date := now } ∧
    (add_order now { customer_id := C, product_id := P, quantity := Q } db).db.orders =
      db.orders ++ [{ id := db.nextOrderId, customer_id := C, product_id := P,
                      quantity := Q, order_date := now }] ∧
    (∀ o ∈ db.orders,
      o.id ≠ (Order.id { id := db.nextOrderId, customer_id := C, product_id := P,
                         quantity := Q, order_date := now })) ∧
    (get_orders (add_order now { customer_id := C, product_id := P, quantity := Q } db).db).response =
      .ok ((add_order now { customer_id := C, product_id := P, quantity := Q } db).db.orders) ∧
    { id := db.nextOrderId, customer_id := C, product_id := P,
      quantity := Q, order_date := now } ∈
      (add_order now { customer_id := C, product_id := P, quantity := Q } db).db.orders := by
  refine ⟨?_, ?_, ?_, ?_, ?_⟩
  · simp [add_order, insertOrderReturning, hfail, hc, hp]
  · simp [add_order, insertOrderReturning, hfail, hc, hp]
  · exact hfresh
  · simp [add_order, insertOrderReturning, hfail, hc, hp, get_orders, selectAllOrders]
  · simp [add_order, insertOrderReturning, hfail, hc, hp]

/-- Witness for C2 on a concrete seeded store. -/
theorem C2_witness :
    (add_order 42 { customer_id := 7, product_id := 1, quantity := 3 } dbSeed).response =
      .ok { id := dbSeed.nextOrderId, customer_id := 7, product_id := 1,
            quantity := 3, order_date := 42 } ∧
    (add_order 42 { customer_id := 7, product_id := 1, quantity := 3 } dbSeed).db.orders =
      dbSeed.orders ++ [{ id := dbSeed.nextOrderId, customer_id := 7, product_id := 1,
                          quantity := 3, order_date := 42 }] ∧
    (∀ o ∈ dbSeed.orders,
      o.id ≠ (Order.id { id := dbSeed.nextOrderId, customer_id := 7, product_id := 1,
                         quantity := 3, order_date := 42 })) ∧
    (get_orders (add_order 42 { customer_id := 7, product_id := 1, quantity := 3 } dbSeed).db).response =
      .ok ((add_order 42 { customer_id := 7, product_id := 1, quantity := 3 } dbSeed).db.orders) ∧
    { id := dbSeed.nextOrderId, customer_id := 7, product_id := 1,
      quantity := 3, order_date := 42 } ∈
      (add_order 42 { customer_id := 7, product_id := 1, quantity := 3 } dbSeed).db.orders :=
  C2_add_order_creates_row 42 dbSeed 7 1 3 rfl (by decide) (by decide) (by decide)

/-- C3: on any store-level failure each handler logs one stderr line made of
its fixed prefix and the underlying error message, and answers the bare
generic status 500 — no body, no distinction of cause. The selects fail with
the store's error `m`; the insert is covered for every failing execution
(connectivity loss or constraint violation), logging its error `e`. -/
theorem C3_uniform_failure_handling (db db2 : Db) (m e : String) (now : Timestamp)
    (payload : NewOrder)
    (hm : db.fail = some m)
    (h2 : insertOrderReturning db2 payload.customer_id payload.product_id
            payload.quantity now = .error e) :
    (get_products db).response = .error INTERNAL_SERVER_ERROR ∧
    (get_products db).log = ["Failed to fetch products: " ++ m] ∧
    (get_customers db).response = .error INTERNAL_SERVER_ERROR ∧
    (get_customers db).log = ["Failed to fetch customers: " ++ m] ∧
    (get_orders db).response = .error INTERNAL_SERVER_ERROR ∧
    (get_orders db).log = ["Failed to fetch orders: " ++ m] ∧
    (add_order now payload db2).response = .error INTERNAL_SERVER_ERROR ∧
    (add_order now payload db2).log = ["Failed to add order: " ++ e] ∧
    (serveRequest now .getProducts db).response = .status INTERNAL_SERVER_ERROR := by
  refine ⟨?_, ?_, ?_, ?_, ?_, ?_, ?_, ?_, ?_⟩ <;>
    simp [serveRequest, get_products, get_customers, get_orders, add_order,
      selectAllProducts, selectAllCustomers, selectAllOrders, hm, h2]

/-- Witness for C3: a down store for the selects, and an insert with an
unknown customer id (foreign-key violation) on a healthy store. -/
theorem C3_witness :
    (get_products dbDown).response = .error INTERNAL_SERVER_ERROR ∧
    (get_products dbDown).log = ["Failed to fetch products: " ++ "connection refused"] ∧
    (get_customers dbDown).response = .error INTERNAL_SERVER_ERROR ∧
    (get_customers dbDown).log = ["Failed to fetch customers: " ++ "connection refused"] ∧
    (get_orders dbDown).response = .error INTERNAL_SERVER_ERROR ∧
    (get_orders dbDown).log = ["Failed to fetch orders: " ++ "connection refused"] ∧
    (add_order 0 { customer_id := 8, product_id := 1, quantity := 3 } dbSeed).response =
      .error INTERNAL_SERVER_ERROR ∧
    (add_order 0 { customer_id := 8, product_id := 1, quantity := 3 } dbSeed).log =
      ["Failed to add order: " ++ fkViolationCustomer] ∧
    (serveRequest 0 .getProducts dbDown).response = .status INTERNAL_SERVER_ERROR :=
  C3_uniform_failure_handling dbDown dbSeed "connection refused" fkViolationCustomer 0
    { customer_id := 8, product_id := 1, quantity := 3 } rfl (by rfl)

/-- C4: posting a `NewOrder` whose `customer_id` or `product_id` references
no existing row makes the handler answer the server-failure status 500 and
leaves the store unchanged: no order row is created. -/
theorem C4_bad_reference_no_row (db : Db) (payload : NewOrder) (now : Timestamp)
    (h : payload.customer_id ∉ db.customers.map Customer.id ∨
         payload.product_id ∉ db.products.map Product.id) :
    (add_order now payload db).response = .error INTERNAL_SERVER_ERROR ∧
    (add_order now payload db).db = db := by
  cases hf : db.fail with
  | some m => simp [add_order, insertOrderReturning, hf]
  | none =>
    rcases h with hc | hp
    · simp [add_order, insertOrderReturning, hf, hc]
    · by_cases hcmem : payload.customer_id ∈ db.customers.map Customer.id
      · simp [add_order, insertOrderReturning, hf, hcmem, hp]
      · simp [add_order, insertOrderReturning, hf, hcmem]

/-- Witness for C4: customer id 8 references no row of the seeded store. -/
theorem C4_witness :
    (add_order 0 { customer_id := 8, product_id := 1, quantity := 3 } dbSeed).response =
      .error INTERNAL_SERVER_ERROR ∧
    (add_order 0 { customer_id := 8, product_id := 1, quantity := 3 } dbSeed).db = dbSeed :=
  C4_bad_reference_no_row dbSeed { customer_id := 8, product_id := 1, quantity := 3 } 0
    (Or.inl (by decide))

/-- C7: startup aborts with a descriptive diagnostic when `DATABASE_URL` is
absent (whether or not the store would be reachable) or when the initial
connection fails; once started, a store failure during any request yields an
HTTP status response (500, or 422 before the handler for an undeserializable
POST body) with the store state unchanged — the process keeps serving. -/
theorem C7_fatal_startup_resilient_requests (url e : String) (db : Db)
    (now : Timestamp) (req : Request)
    (hdb : db.fail = some e) :
    startup none true = .fatal "DATABASE_URL must be set" ∧
    startup none false = .fatal "DATABASE_URL must be set" ∧
    startup (some url) false = .fatal "Failed to create database connection pool" ∧
    (((serveRequest now req db).response = .status INTERNAL_SERVER_ERROR ∨
      (serveRequest now req db).response = .status UNPROCESSABLE_ENTITY) ∧
     (serveRequest now req db).db = db) := by
  refine ⟨rfl, rfl, by simp [startup], ?_⟩
  cases req with
  | getProducts =>
    refine ⟨Or.inl ?_, ?_⟩ <;> simp [serveRequest, get_products, selectAllProducts, hdb]
  | getCustomers =>
    refine ⟨Or.inl ?_, ?_⟩ <;> simp [serveRequest, get_customers, selectAllCustomers, hdb]
  | getOrders =>
    refine ⟨Or.inl ?_, ?_⟩ <;> simp [serveRequest, get_orders, selectAllOrders, hdb]
  | postOrders body =>
    cases hd : deserializeNewOrder body with
    | none => refine ⟨Or.inr ?_, ?_⟩ <;> simp [serveRequest, hd]
    | some p =>
      refine ⟨Or.inl ?_, ?_⟩ <;>
        simp [serveRequest, hd, add_order, insertOrderReturning, hdb]

/-- Witness for C7 at a concrete url, down store and request. -/
theorem C7_witness :
    startup none true = .fatal "DATABASE_URL must be set" ∧
    startup none false = .fatal "DATABASE_URL must be set" ∧
    startup (some "postgres://localhost/shop") false =
      .fatal "Failed to create database connection pool" ∧
    (((serveRequest 0 .getOrders dbDown).response = .status INTERNAL_SERVER_ERROR ∨
      (serveRequest 0 .getOrders dbDown).response = .status UNPROCESSABLE_ENTITY) ∧
     (serveRequest 0 .getOrders dbDown).db = dbDown) :=
  C7_fatal_startup_resilient_requests "postgres://localhost/shop" "connection refused"
    dbDown 0 .getOrders rfl

/-- C5: a POST `/orders` body that is missing a required `NewOrder` field,
or whose `quantity` is not an integer, fails deserialization; the extractor
answers the client-format status 422 (a 4xx) before the handler runs — no
statement is issued, nothing is logged, and the store is unchanged. -/
theorem C5_malformed_body_rejected (db : Db) (now : Timestamp)
    (fs : List (String × Json))
    (h : jLookup fs "customer_id" = none ∨ jLookup fs "product_id" = none ∨
         jLookup fs "quantity" = none ∨
         (∃ j, jLookup fs "quantity" = some j ∧ j.isInt = false)) :
    deserializeNewOrder (.obj fs) = none ∧
    serveRequest now (.postOrders (.obj fs)) db =
      { response := .status UNPROCESSABLE_ENTITY, db := db, log := [], trace := [] } ∧
    400 ≤ UNPROCESSABLE_ENTITY ∧ UNPROCESSABLE_ENTITY < 500 := by
  have hnone : deserializeNewOrder (.obj fs) = none := by
    rcases h with hc | hp | hq | ⟨j, hj, hji⟩
    · rw [deserializeNewOrder_obj, hc, Option.none_bind']
    · rw [deserializeNewOrder_obj]
      cases jLookup fs "customer_id" with
      | none => rfl
      | some cj =>
        rw [Option.some_bind']
        cases asUuid cj with
        | none => rfl
        | some c => rw [Option.some_bind', hp, Option.none_bind']
    · refine deserializeNewOrder_quantity_fail fs fun j hj => ?_
      rw [hq] at hj; cases hj
    · refine deserializeNewOrder_quantity_fail fs fun j2 hj2 => ?_
      have hjj : some j = some j2 := hj.symm.trans hj2
      injection hjj with hjj
      subst hjj
      exact asI32_eq_none_of_not_int j hji
  refine ⟨hnone, ?_, by decide, by decide⟩
  simp [serveRequest, hnone]

/-- Witness for C5: a body with valid ids but `quantity` bound to a
fractional number. -/
theorem C5_witness :
    deserializeNewOrder (.obj [("customer_id", .str "00000000-0000-0000-0000-000000000007"),
      ("product_id", .str "00000000-0000-0000-0000-000000000001"),
      ("quantity", .frac 3 "5")]) = none ∧
    serveRequest 0 (.postOrders (.obj [("customer_id", .str "00000000-0000-0000-0000-000000000007"),
      ("product_id", .str "00000000-0000-0000-0000-000000000001"),
      ("quantity", .frac 3 "5")])) dbSeed =
      { response := .status UNPROCESSABLE_ENTITY, db := dbSeed, log := [], trace := [] } ∧
    400 ≤ UNPROCESSABLE_ENTITY ∧ UNPROCESSABLE_ENTITY < 500 :=
  C5_malformed_body_rejected dbSeed 0
    [("customer_id", .str "00000000-0000-0000-0000-000000000007"),
     ("product_id", .str "00000000-0000-0000-0000-000000000001"),
     ("quantity", .frac 3 "5")]
    (Or.inr (Or.inr (Or.inr ⟨.frac 3 "5", rfl, rfl⟩)))

/-- C9: two POST `/orders` bodies that agree on the three `NewOrder` fields
deserialize identically however their other fields differ — any extra field,
a caller-supplied `order_date` included, is ignored — and the whole request
is served identically; the one statement issued carries the server-computed
timestamp `now` as `order_date`. -/
theorem C9_unknown_fields_ignored (db : Db) (now : Timestamp)
    (fs1 fs2 : List (String × Json)) (p : NewOrder)
    (h1 : jLookup fs1 "customer_id" = jLookup fs2 "customer_id")
    (h2 : jLookup fs1 "product_id" = jLookup fs2 "product_id")
    (h3 : jLookup fs1 "quantity" = jLookup fs2 "quantity")
    (hp : deserializeNewOrder (.obj fs1) = some p) :
    deserializeNewOrder (.obj fs2) = some p ∧
    serveRequest now (.postOrders (.obj fs1)) db =
      serveRequest now (.postOrders (.obj fs2)) db ∧
    (serveRequest now (.postOrders (.obj fs1)) db).trace =
      [.insertOrder p.customer_id p.product_id p.quantity now] := by
  have hdeq : deserializeNewOrder (.obj fs1) = deserializeNewOrder (.obj fs2) := by
    rw [deserializeNewOrder_obj, deserializeNewOrder_obj, h1, h2, h3]
  have hp2 : deserializeNewOrder (.obj fs2) = some p := hdeq.symm.trans hp
  refine ⟨hp2, ?_, ?_⟩
  · simp [serveRequest, hp, hp2]
  · simp only [serveRequest, hp]
    show (add_order now p db).trace = _
    unfold add_order
    rcases insertOrderReturning db p.customer_id p.product_id p.quantity now
      with e | ⟨o, db2⟩ <;> rfl

/-- Witness for C9: the same three fields, the second body carrying an extra
`order_date` and a free-form extra field. -/
theorem C9_witness :
    deserializeNewOrder (.obj [("customer_id", .str "00000000-0000-0000-0000-000000000007"),
      ("product_id", .str "00000000-0000-0000-0000-000000000001"),
      ("quantity", .int 3),
      ("order_date", .str "1999-01-01T00:00:00"),
      ("note", .bool true)]) =
      some { customer_id := 7, product_id := 1, quantity := 3 } ∧
    serveRequest 42 (.postOrders (.obj [("customer_id", .str "00000000-0000-0000-0000-000000000007"),
      ("product_id", .str "00000000-0000-0000-0000-000000000001"),
      ("quantity", .int 3)])) dbSeed =
      serveRequest 42 (.postOrders (.obj [("customer_id", .str "00000000-0000-0000-0000-000000000007"),
        ("product_id", .str "00000000-0000-0000-0000-000000000001"),
        ("quantity", .int 3),
        ("order_date", .str "1999-01-01T00:00:00"),
        ("note", .bool true)])) dbSeed ∧
    (serveRequest 42 (.postOrders (.obj [("customer_id", .str "00000000-0000-0000-0000-000000000007"),
      ("product_id", .str "00000000-0000-0000-0000-000000000001"),
      ("quantity", .int 3)])) dbSeed).trace = [.insertOrder 7 1 3 42] :=
  C9_unknown_fields_ignored dbSeed 42
    [("customer_id", .str "00000000-0000-0000-0000-000000000007"),
     ("product_id", .str "00000000-0000-0000-0000-000000000001"),
     ("quantity", .int 3)]
    [("customer_id", .str "00000000-0000-0000-0000-000000000007"),
     ("product_id", .str "00000000-0000-0000-0000-000000000001"),
     ("quantity", .int 3),
     ("order_date", .str "1999-01-01T00:00:00"),
     ("note", .bool true)]
    { customer_id := 7, product_id := 1, quantity := 3 } rfl rfl rfl (by rfl)

/-- C10: `quantity` deserializes as a 32-bit signed integer: an integral
JSON number outside `[-2147483648, 2147483647]` fails deserialization and
the extractor answers the 422 client-format status, while any in-range
value — zero and negatives included — is accepted and inserted unchanged,
with no positivity validation by the handler. -/
theorem C10_quantity_is_i32 (db db2 : Db) (now now2 : Timestamp)
    (fs : List (String × Json)) (n : Int) (C P : Uuid) (q : Int)
    (h1 : jLookup fs "quantity" = some (.int n))
    (h2 : n < i32Min ∨ i32Max < n)
    (hq1 : i32Min ≤ q) (hq2 : q ≤ i32Max)
    (hfail : db2.fail = none)
    (hc : C ∈ db2.customers.map Customer.id)
    (hp : P ∈ db2.products.map Product.id) :
    deserializeNewOrder (.obj fs) = none ∧
    serveRequest now (.postOrders (.obj fs)) db =
      { response := .status UNPROCESSABLE_ENTITY, db := db, log := [], trace := [] } ∧
    asI32 (.int q) = some q ∧
    (add_order now2 { customer_id := C, product_id := P, quantity := q } db2).response =
      .ok { id := db2.nextOrderId, customer_id := C, product_id := P,
            quantity := q, order_date := now2 } := by
  have hnone : deserializeNewOrder (.obj fs) = none := by
    refine deserializeNewOrder_quantity_fail fs fun j hj => ?_
    have hjj : some (Json.int n) = some j := h1.symm.trans hj
    injection hjj with hjj
    subst hjj
    simp only [asI32]
    rw [if_neg]
    rintro ⟨ha, hb⟩
    rcases h2 with h2 | h2 <;> omega
  refine ⟨hnone, ?_, ?_, ?_⟩
  · simp [serveRequest, hnone]
  · simp [asI32, hq1, hq2]
  · simp [add_order, insertOrderReturning, hfail, hc, hp]

/-- Witness for C10: quantity 2147483648 is rejected; quantity -5 is
accepted and stored as is. -/
theorem C10_witness :
    deserializeNewOrder (.obj [("customer_id", .str "00000000-0000-0000-0000-000000000007"),
      ("product_id", .str "00000000-0000-0000-0000-000000000001"),
      ("quantity", .int 2147483648)]) = none ∧
    serveRequest 0 (.postOrders (.obj [("customer_id", .str "00000000-0000-0000-0000-000000000007"),
      ("product_id", .str "00000000-0000-0000-0000-000000000001"),
      ("quantity", .int 2147483648)])) dbDown =
      { response := .status UNPROCESSABLE_ENTITY, db := dbDown, log := [], trace := [] } ∧
    asI32 (.int (-5)) = some (-5) ∧
    (add_order 5 { customer_id := 7, product_id := 1, quantity := -5 } dbSeed).response =
      .ok { id := dbSeed.nextOrderId, customer_id := 7, product_id := 1,
            quantity := -5, order_date := 5 } :=
  C10_quantity_is_i32 dbDown dbSeed 0 5
    [("customer_id", .str "00000000-0000-0000-0000-000000000007"),
     ("product_id", .str "00000000-0000-0000-0000-000000000001"),
     ("quantity", .int 2147483648)]
    2147483648 7 1 (-5) rfl (Or.inr (by decide)) (by decide) (by decide) rfl
    (by decide) (by decide)

end Shop
